import Mathlib

/-
  Verification of the external calendar/task synchronization subsystem of the
  period_cycle_planner repository, as a shallow embedding in Lean 4.

  Source files embedded here:
  - backend token store (buildTokenUpdate / upsertGoogleTokens);
  - the calendar hook useGoogleCalendarEvents (parseGoogleDate, normalizeTaskDue,
    getTaskDateRange, mapGoogleEvent, mapGoogleTask, createDedupKey, dedupeEvents,
    and the combined window fetch);
  - the page coordinator (boardTasks status override, handleMoveTask, upcomingEvents);
  - the backend PATCH /tasks/:taskId route body construction.

  Modelling conventions:
  - JavaScript values that may be null or undefined become Option; `a ?? b`
    becomes Option.orElse (both null and undefined are nullish).
  - Instants are Int milliseconds since the Unix epoch.  The model fixes the
    local timezone to UTC, so the date-fns local-day operations startOfDay,
    endOfDay, addDays and the UTC truncation toISOString().slice(0,10) all act
    on the same day grid.  Int.ediv is floor division for the positive divisor
    msPerDay, which is exactly calendar-day truncation.
  - crypto.randomUUID() is passed in as an explicit `uuid` argument.
-/

/-- Stored row of the googleCalendarToken table (the persisted Credential).
A stored expiryDate is a Date; it is modelled by its millisecond value. -/
structure GoogleCalendarToken where
  accessToken : String
  refreshToken : Option String
  scope : Option String
  tokenType : Option String
  expiryDate : Option Int
  deriving Repr, DecidableEq

/-- Token response from the provider (google-auth-library Credentials):
every field is optional. -/
structure Credentials where
  access_token : Option String
  refresh_token : Option String
  scope : Option String
  token_type : Option String
  expiry_date : Option Int
  deriving Repr, DecidableEq

/-- Embedding of buildTokenUpdate from the backend google service.
`tokens.access_token ?? existing?.accessToken` is the Option.orElse chain; the
JS guard `if (!accessToken) throw` fires on a missing value and on the empty
string (both falsy).  The expiryDate field follows the source exactly:
`tokens.expiry_date ? new Date(tokens.expiry_date) : existing?.expiryDate ?? null`
is a truthiness test, so an expiry_date equal to 0 falls back to the stored
value. -/
def buildTokenUpdate (existing : Option GoogleCalendarToken) (tokens : Credentials) :
    Except String GoogleCalendarToken :=
  match tokens.access_token.orElse fun _ => existing.map (·.accessToken) with
  | none => Except.error "Missing access token from Google"
  | some accessToken =>
    if accessToken = "" then Except.error "Missing access token from Google"
    else Except.ok {
      accessToken := accessToken
      refreshToken := tokens.refresh_token.orElse fun _ => existing.bind (·.refreshToken)
      scope := tokens.scope.orElse fun _ => existing.bind (·.scope)
      tokenType := tokens.token_type.orElse fun _ => existing.bind (·.tokenType)
      expiryDate :=
        match tokens.expiry_date with
        | some e => if e = 0 then existing.bind (·.expiryDate) else some e
        | none => existing.bind (·.expiryDate) }

/-- Embedding of upsertGoogleTokens: reads the existing row, builds the merged
update, and writes it (prisma upsert writes the same fields on create and on
update).  The returned value is the row as stored. -/
def upsertGoogleTokens (existing : Option GoogleCalendarToken) (tokens : Credentials) :
    Except String GoogleCalendarToken :=
  buildTokenUpdate existing tokens

/-- Database state after a call to upsertGoogleTokens: the throw in
buildTokenUpdate happens before the prisma write, so on error the stored row
(or its absence) is unchanged. -/
def storedAfterUpsert (existing : Option GoogleCalendarToken) (tokens : Credentials) :
    Option GoogleCalendarToken :=
  match buildTokenUpdate existing tokens with
  | Except.error _ => existing
  | Except.ok u => some u

/-- Field characterization of a successful merge. -/
lemma buildTokenUpdate_eq_ok (existing : Option GoogleCalendarToken) (tokens : Credentials)
    (u : GoogleCalendarToken) (h : buildTokenUpdate existing tokens = Except.ok u) :
    (tokens.access_token.orElse fun _ => existing.map (·.accessToken)) = some u.accessToken ∧
    u.accessToken ≠ "" ∧
    u.refreshToken = (tokens.refresh_token.orElse fun _ => existing.bind (·.refreshToken)) ∧
    u.scope = (tokens.scope.orElse fun _ => existing.bind (·.scope)) ∧
    u.tokenType = (tokens.token_type.orElse fun _ => existing.bind (·.tokenType)) ∧
    u.expiryDate = (match tokens.expiry_date with
      | some e => if e = 0 then existing.bind (·.expiryDate) else some e
      | none => existing.bind (·.expiryDate)) := by
  unfold buildTokenUpdate at h
  cases u with
  | mk ua ur us ut ue =>
    split at h
    · exact absurd h (by simp)
    · next a hacc =>
      split at h
      · exact absurd h (by simp)
      · next ha =>
        simp only [Except.ok.injEq, GoogleCalendarToken.mk.injEq] at h
        obtain ⟨h1, h2, h3, h4, h5⟩ := h
        exact ⟨by rw [hacc, h1], by simp [← h1, ha], h2.symm, h3.symm, h4.symm, h5.symm⟩

/-- Converse: with a usable access token resolved, the merge succeeds and
produces exactly the merged fields. -/
lemma buildTokenUpdate_ok_of (existing : Option GoogleCalendarToken) (tokens : Credentials)
    (a : String)
    (hacc : (tokens.access_token.orElse fun _ => existing.map (·.accessToken)) = some a)
    (hne : a ≠ "") :
    buildTokenUpdate existing tokens = Except.ok {
      accessToken := a
      refreshToken := tokens.refresh_token.orElse fun _ => existing.bind (·.refreshToken)
      scope := tokens.scope.orElse fun _ => existing.bind (·.scope)
      tokenType := tokens.token_type.orElse fun _ => existing.bind (·.tokenType)
      expiryDate :=
        match tokens.expiry_date with
        | some e => if e = 0 then existing.bind (·.expiryDate) else some e
        | none => existing.bind (·.expiryDate) } := by
  unfold buildTokenUpdate
  split
  · next heq => rw [hacc] at heq; exact absurd heq (by simp)
  · next a2 heq =>
    rw [hacc] at heq
    injection heq with heq2
    subst heq2
    rw [if_neg hne]

/-- Concrete stored credential used for the C1 counterexample: expiryDate 5. -/
def exExpiry5 : GoogleCalendarToken :=
  { accessToken := "A1", refreshToken := some "R1", scope := none,
    tokenType := none, expiryDate := some 5 }

/-- Concrete token response used for the C1 counterexample: expiry_date is
present with value 0. -/
def tkExpiry0 : Credentials :=
  { access_token := some "A2", refresh_token := none, scope := none,
    token_type := none, expiry_date := some 0 }

/-- C1 counterexample: the claim says every field present in the token
response overwrites the stored value, but the source guards expiryDate with a
JS truthiness test, so a token response whose expiry_date is present with
value 0 keeps the previously stored expiryDate (here 5) instead of taking 0. -/
theorem c1_counterexample :
    tkExpiry0.expiry_date = some 0 ∧
    (upsertGoogleTokens (some exExpiry5) tkExpiry0).map (·.expiryDate) =
      Except.ok (some 5) ∧
    some (5 : Int) ≠ some (0 : Int) := by
  refine ⟨rfl, rfl, by decide⟩

/-- C1 (amended): for every stored credential and token response, a
successful upsert takes accessToken, refreshToken, scope and tokenType from
the token response when present there and keeps the stored value otherwise;
expiryDate is taken from the response when it is present with a nonzero
value, and the stored value is kept when it is absent or present with value 0
(the source tests expiry_date for truthiness, not presence). -/
theorem c1_upsert_merge_fields (existing : Option GoogleCalendarToken)
    (tokens : Credentials) (u : GoogleCalendarToken)
    (h : upsertGoogleTokens existing tokens = Except.ok u) :
    (∀ a, tokens.access_token = some a → u.accessToken = a) ∧
    (tokens.access_token = none → existing.map (·.accessToken) = some u.accessToken) ∧
    (∀ r, tokens.refresh_token = some r → u.refreshToken = some r) ∧
    (tokens.refresh_token = none → u.refreshToken = existing.bind (·.refreshToken)) ∧
    (∀ s, tokens.scope = some s → u.scope = some s) ∧
    (tokens.scope = none → u.scope = existing.bind (·.scope)) ∧
    (∀ t, tokens.token_type = some t → u.tokenType = some t) ∧
    (tokens.token_type = none → u.tokenType = existing.bind (·.tokenType)) ∧
    (∀ e, tokens.expiry_date = some e → e ≠ 0 → u.expiryDate = some e) ∧
    ((tokens.expiry_date = none ∨ tokens.expiry_date = some 0) →
      u.expiryDate = existing.bind (·.expiryDate)) := by
  obtain ⟨h1, h2, h3, h4, h5, h6⟩ := buildTokenUpdate_eq_ok existing tokens u h
  refine ⟨?_, ?_, ?_, ?_, ?_, ?_, ?_, ?_, ?_, ?_⟩
  · intro a ha; rw [ha] at h1; simpa [Option.orElse] using h1.symm
  · intro ha; rw [ha] at h1; simpa [Option.orElse] using h1
  · intro r hr; rw [hr] at h3; simpa [Option.orElse] using h3
  · intro hr; rw [hr] at h3; simpa [Option.orElse] using h3
  · intro s hs; rw [hs] at h4; simpa [Option.orElse] using h4
  · intro hs; rw [hs] at h4; simpa [Option.orElse] using h4
  · intro t ht; rw [ht] at h5; simpa [Option.orElse] using h5
  · intro ht; rw [ht] at h5; simpa [Option.orElse] using h5
  · intro e he hne; rw [he] at h6; simpa [hne] using h6
  · rintro (he | he) <;> rw [he] at h6 <;> simpa using h6

/-- Stored credential for the C1 witness scenario: refreshToken R1. -/
def exRefreshR1 : GoogleCalendarToken :=
  { accessToken := "A1", refreshToken := some "R1", scope := none,
    tokenType := none, expiryDate := none }

/-- Refresh response for the C1 witness scenario: only access_token A2. -/
def tkAccessA2 : Credentials :=
  { access_token := some "A2", refresh_token := none, scope := none,
    token_type := none, expiry_date := none }

/-- Merged credential for the C1 witness scenario. -/
def mergedA2R1 : GoogleCalendarToken :=
  { accessToken := "A2", refreshToken := some "R1", scope := none,
    tokenType := none, expiryDate := none }

/-- Witness for c1_upsert_merge_fields: a stored credential with refreshToken
R1 merged with a refresh response carrying only access_token A2 yields
accessToken A2 with refreshToken R1 preserved. -/
theorem c1_upsert_merge_fields_witness :
    upsertGoogleTokens (some exRefreshR1) tkAccessA2 = Except.ok mergedA2R1 ∧
    mergedA2R1.accessToken = "A2" ∧
    mergedA2R1.refreshToken = some "R1" :=
  ⟨rfl,
   (c1_upsert_merge_fields (some exRefreshR1) tkAccessA2 mergedA2R1 rfl).1 "A2" rfl,
   (c1_upsert_merge_fields (some exRefreshR1) tkAccessA2 mergedA2R1 rfl).2.2.2.1 rfl⟩

/-- C2: when neither the token response nor the stored credential carries a
usable (nonempty) access token, the upsert fails with an error and the stored
state is unchanged. -/
theorem c2_upsert_rejects_unusable (existing : Option GoogleCalendarToken)
    (tokens : Credentials)
    (hTk : ∀ a, tokens.access_token = some a → a = "")
    (hEx : ∀ c, existing = some c → c.accessToken = "") :
    (∃ msg, upsertGoogleTokens existing tokens = Except.error msg) ∧
    storedAfterUpsert existing tokens = existing := by
  have herr : ∃ msg, buildTokenUpdate existing tokens = Except.error msg := by
    unfold buildTokenUpdate
    cases hat : tokens.access_token with
    | some a => simp [Option.orElse, hTk a hat]
    | none =>
      cases hex : existing with
      | none => simp [Option.orElse]
      | some c => simp [Option.orElse, hEx c hex]
  obtain ⟨msg, hm⟩ := herr
  refine ⟨⟨msg, hm⟩, ?_⟩
  unfold storedAfterUpsert
  rw [hm]

/-- Token response with every field absent. -/
def tkEmpty : Credentials :=
  { access_token := none, refresh_token := none, scope := none,
    token_type := none, expiry_date := none }

/-- Witness for c2_upsert_rejects_unusable: with no stored credential and an
empty token response the upsert errors out and the store stays empty. -/
theorem c2_upsert_rejects_unusable_witness :
    (∃ msg, upsertGoogleTokens none tkEmpty = Except.error msg) ∧
    storedAfterUpsert none tkEmpty = none :=
  c2_upsert_rejects_unusable none tkEmpty
    (fun a ha => by simp [tkEmpty] at ha)
    (fun c hc => by simp at hc)

/-- C9: upsert is idempotent; running the same token response again over the
credential stored by the first call reproduces that credential exactly. -/
theorem c9_upsert_idempotent (existing : Option GoogleCalendarToken)
    (tokens : Credentials) (u : GoogleCalendarToken)
    (h : upsertGoogleTokens existing tokens = Except.ok u) :
    upsertGoogleTokens (some u) tokens = Except.ok u ∧
    storedAfterUpsert (some u) tokens = some u := by
  obtain ⟨h1, h2, h3, h4, h5, h6⟩ := buildTokenUpdate_eq_ok existing tokens u h
  have hacc2 : (tokens.access_token.orElse fun _ => (some u).map (·.accessToken)) =
      some u.accessToken := by
    cases hat : tokens.access_token with
    | some a => rw [hat] at h1; simpa [Option.orElse] using h1
    | none => simp [Option.orElse]
  have hok := buildTokenUpdate_ok_of (some u) tokens u.accessToken hacc2 h2
  have hrec : buildTokenUpdate (some u) tokens = Except.ok u := by
    rw [hok]
    congr 1
    cases u with
    | mk ua ur us ut ue =>
      simp only [GoogleCalendarToken.mk.injEq]
      refine ⟨trivial, ?_, ?_, ?_, ?_⟩
      · cases hrt : tokens.refresh_token with
        | some r => rw [hrt] at h3; simp [Option.orElse]; simpa [Option.orElse] using h3.symm
        | none => simp [Option.orElse]
      · cases hsc : tokens.scope with
        | some s => rw [hsc] at h4; simp [Option.orElse]; simpa [Option.orElse] using h4.symm
        | none => simp [Option.orElse]
      · cases htt : tokens.token_type with
        | some t => rw [htt] at h5; simp [Option.orElse]; simpa [Option.orElse] using h5.symm
        | none => simp [Option.orElse]
      · cases het : tokens.expiry_date with
        | some e =>
          rw [het] at h6
          by_cases he0 : e = 0
          · simp [he0]
          · simp only [if_neg he0] at h6 ⊢; exact h6.symm
        | none => simp
  refine ⟨hrec, ?_⟩
  unfold storedAfterUpsert
  rw [hrec]

/-- Token response used by the C9 witness. -/
def tkAccessOnly : Credentials :=
  { access_token := some "A", refresh_token := none, scope := none,
    token_type := none, expiry_date := none }

/-- Credential stored by the first upsert of the C9 witness. -/
def credAccessOnly : GoogleCalendarToken :=
  { accessToken := "A", refreshToken := none, scope := none,
    tokenType := none, expiryDate := none }

/-- Witness for c9_upsert_idempotent at a concrete first upsert from an empty
store. -/
theorem c9_upsert_idempotent_witness :
    upsertGoogleTokens (some credAccessOnly) tkAccessOnly = Except.ok credAccessOnly ∧
    storedAfterUpsert (some credAccessOnly) tkAccessOnly = some credAccessOnly :=
  c9_upsert_idempotent none tkAccessOnly credAccessOnly rfl

/-- Milliseconds per day, the grid used by the date helpers. -/
def msPerDay : Int := 86400000

/-- Calendar-day index of an instant.  Int division is Euclidean, which for
the positive divisor msPerDay is floor division, exactly the UTC calendar-day
truncation performed by toISOString().slice(0,10) in the fixed-UTC model. -/
def dayIndex (t : Int) : Int := t / msPerDay

/-- date-fns startOfDay in the fixed-UTC model. -/
def startOfDay (t : Int) : Int := dayIndex t * msPerDay

/-- date-fns endOfDay in the fixed-UTC model: 23:59:59.999 of the same day. -/
def endOfDay (t : Int) : Int := dayIndex t * msPerDay + (msPerDay - 1)

/-- date-fns addDays in the fixed-UTC model. -/
def addDays (t : Int) (n : Int) : Int := t + n * msPerDay

/-- Shape of a Google event date value: either a bare date (a string matching
the anchored YYYY-MM-DD regex of isDateOnly, carried as its day index) or a
full timestamp (carried as its instant). -/
inductive GDateValue where
  | dateOnly (day : Int)
  | dateTime (t : Int)
  deriving Repr, DecidableEq

/-- Embedding of parseGoogleDate.  For a bare date the source builds the
local-midnight Date of that day (day * msPerDay here); an end value is moved
back one day and widened to end-of-day, a start value is floored to
start-of-day.  Any other value is parsed as the timestamp itself. -/
def parseGoogleDate (value : GDateValue) (isEnd : Bool) : Int :=
  match value with
  | GDateValue.dateOnly d =>
    if isEnd then endOfDay (addDays (d * msPerDay) (-1))
    else startOfDay (d * msPerDay)
  | GDateValue.dateTime t => t

/-- Shape of a task due value: a bare date, a timestamp matching the
midnight-UTC regex T00:00:00(.000)?Z of normalizeTaskDue (carried as the day
index of its UTC date), or any other timestamp. -/
inductive TaskDueValue where
  | dateOnly (day : Int)
  | midnightUtc (day : Int)
  | dateTime (t : Int)
  deriving Repr, DecidableEq

/-- Embedding of normalizeTaskDue: a midnight-UTC timestamp is cut down to
its bare date by value.slice(0, 10); everything else passes through. -/
def normalizeTaskDue : TaskDueValue → TaskDueValue
  | TaskDueValue.midnightUtc d => TaskDueValue.dateOnly d
  | v => v

/-- Embedding of getTaskDateRange: a (normalized) bare date spans the whole
day; any other value is the point instant parsed from it.  The middle branch
is unreachable because normalizeTaskDue removes midnightUtc, but it keeps the
function total; new Date on such a string is the UTC midnight instant. -/
def getTaskDateRange (value : TaskDueValue) : Int × Int :=
  match normalizeTaskDue value with
  | TaskDueValue.dateOnly d => (startOfDay (d * msPerDay), endOfDay (d * msPerDay))
  | TaskDueValue.midnightUtc d => (d * msPerDay, d * msPerDay)
  | TaskDueValue.dateTime t => (t, t)

/-- Source tag of a CalendarEvent, from the frontend types module. -/
inductive EventSource where
  | google
  | googleTask
  | outlook
  | manual
  deriving Repr, DecidableEq

/-- Normalized CalendarEvent of the frontend.  The source field named end is
a reserved word in Lean and is called endTime here. -/
structure CalendarEvent where
  id : String
  title : String
  start : Int
  endTime : Int
  source : EventSource
  completed : Option Bool
  deriving Repr, DecidableEq

/-- Raw Google Calendar event as consumed by mapGoogleEvent; startValue and
endValue stand for event.start.dateTime || event.start.date and the same for
event.end. -/
structure GEvent where
  id : Option String
  summary : Option String
  startValue : Option GDateValue
  endValue : Option GDateValue
  deriving Repr, DecidableEq

/-- Raw Google Task as consumed by mapGoogleTask. -/
structure GTask where
  id : Option String
  title : Option String
  due : Option TaskDueValue
  status : Option String
  deriving Repr, DecidableEq

/-- JS `value || fallback` for an optional string: both a missing value and
the empty string are falsy. -/
def orUntitled (s : Option String) (fallback : String) : String :=
  match s with
  | some t => if t = "" then fallback else t
  | none => fallback

/-- Embedding of mapGoogleEvent.  The uuid argument stands for
crypto.randomUUID(), used only when the event has no id. -/
def mapGoogleEvent (uuid : String) (event : GEvent) : Option CalendarEvent :=
  match event.startValue with
  | none => none
  | some sv =>
    let start := parseGoogleDate sv false
    let endTime :=
      match event.endValue with
      | some ev => parseGoogleDate ev true
      | none => start
    some {
      id := event.id.getD uuid
      title := orUntitled event.summary "(Untitled event)"
      start := start
      endTime := endTime
      source := EventSource.google
      completed := none }

/-- Embedding of mapGoogleTask. -/
def mapGoogleTask (uuid : String) (task : GTask) : Option CalendarEvent :=
  match task.due with
  | none => none
  | some dueValue =>
    let range := getTaskDateRange dueValue
    some {
      id := "task-" ++ task.id.getD uuid
      title := orUntitled task.title "(Untitled task)"
      start := range.1
      endTime := range.2
      source := EventSource.googleTask
      completed := some (task.status == some "completed") }

/-- Embedding of createDedupKey: the pair (UTC calendar date of start,
trimmed lower-cased title).  The source interpolates both parts into the
string dateKey::titleKey; since the date part has a fixed ten-character
format the string is injective in the pair, so the pair is used directly. -/
def createDedupKey (event : CalendarEvent) : Int × String :=
  (dayIndex event.start, event.title.trim.toLower)

/-- Keys of the task-sourced items, the Set built by the first loop of
dedupeEvents (modelled as a list whose contains is set membership). -/
def taskKeys (events : List CalendarEvent) : List (Int × String) :=
  (events.filter fun e => e.source == EventSource.googleTask).map createDedupKey

/-- Embedding of dedupeEvents: keep every task-sourced item, keep every item
that is not google-sourced, and drop a google-sourced event exactly when its
key is in the task-key set. -/
def dedupeEvents (events : List CalendarEvent) : List CalendarEvent :=
  let keys := taskKeys events
  events.filter fun event =>
    if event.source == EventSource.googleTask then true
    else if event.source != EventSource.google then true
    else !(keys.contains (createDedupKey event))

/-- Membership in the task-key set is existence of a task-sourced item with
that key. -/
lemma taskKeys_contains (events : List CalendarEvent) (k : Int × String) :
    (taskKeys events).contains k =
      events.any fun t => t.source == EventSource.googleTask && k == createDedupKey t := by
  induction events with
  | nil => rfl
  | cons e es ih =>
    cases hs : (e.source == EventSource.googleTask) with
    | true =>
      have hfilter : taskKeys (e :: es) = createDedupKey e :: taskKeys es := by
        simp [taskKeys, List.filter_cons, hs]
      rw [hfilter, List.contains_cons, ih, List.any_cons, hs, Bool.true_and]
    | false =>
      have hfilter : taskKeys (e :: es) = taskKeys es := by
        simp [taskKeys, List.filter_cons, hs]
      rw [hfilter, ih, List.any_cons, hs, Bool.false_and, Bool.false_or]

/-- Task-sourced item for the dedup scenarios: day 19744 is 2024-01-22. -/
def callMomTask : CalendarEvent :=
  { id := "task-1", title := "Call mom", start := 19744 * msPerDay,
    endTime := 19744 * msPerDay + (msPerDay - 1),
    source := EventSource.googleTask, completed := some false }

/-- Second task-sourced item with the same date and title. -/
def callMomTask2 : CalendarEvent :=
  { id := "task-2", title := "Call mom", start := 19744 * msPerDay,
    endTime := 19744 * msPerDay + (msPerDay - 1),
    source := EventSource.googleTask, completed := some false }

/-- Event-sourced item with the same date and title as callMomTask. -/
def callMomEvent : CalendarEvent :=
  { id := "e1", title := "Call mom", start := 19744 * msPerDay,
    endTime := 19744 * msPerDay + (msPerDay - 1),
    source := EventSource.google, completed := none }

/-- C5: the deduplicator removes exactly the google-event-sourced items whose
dedup key (day of start, trimmed lower-cased title) is the key of some
task-sourced item of the list, never removes a task-sourced item, keeps one
task from a matching task/event pair, and keeps both of two identically-keyed
tasks. -/
theorem c5_dedupe_characterization (events : List CalendarEvent) :
    dedupeEvents events = (events.filter fun e =>
      !(e.source == EventSource.google &&
        events.any fun t => t.source == EventSource.googleTask &&
          createDedupKey e == createDedupKey t)) ∧
    (∀ e, e ∈ events → e.source = EventSource.googleTask → e ∈ dedupeEvents events) ∧
    dedupeEvents [callMomEvent, callMomTask] = [callMomTask] ∧
    dedupeEvents [callMomTask, callMomTask2] = [callMomTask, callMomTask2] := by
  have hkey : createDedupKey callMomEvent = createDedupKey callMomTask := rfl
  refine ⟨?_, ?_, ?_, ?_⟩
  · unfold dedupeEvents
    apply List.filter_congr
    intro x _
    cases hsrc : x.source
    case googleTask => simp [hsrc]
    case outlook => simp [hsrc]
    case manual => simp [hsrc]
    case google =>
      rw [if_neg (by decide), if_neg (by decide), taskKeys_contains]
      rw [show (EventSource.google == EventSource.google) = true from rfl, Bool.true_and]
  · intro e he hsrc
    unfold dedupeEvents
    simp only [List.mem_filter]
    exact ⟨he, by simp [hsrc]⟩
  · simp +decide [dedupeEvents, taskKeys, List.filter_cons, hkey]
  · simp +decide [dedupeEvents, taskKeys, List.filter_cons]

/-- Witness for c5_dedupe_characterization: the task of the task/event pair
is retained by the deduplicator. -/
theorem c5_dedupe_characterization_witness :
    callMomTask ∈ dedupeEvents [callMomEvent, callMomTask] :=
  (c5_dedupe_characterization [callMomEvent, callMomTask]).2.1 callMomTask
    (by decide) rfl

/-- Day-index of a midnight instant is the day itself. -/
lemma dayIndex_mul (d : Int) : dayIndex (d * msPerDay) = d :=
  Int.mul_ediv_cancel d (by decide)

/-- startOfDay of a midnight instant is that instant. -/
lemma startOfDay_mul (d : Int) : startOfDay (d * msPerDay) = d * msPerDay := by
  unfold startOfDay
  rw [dayIndex_mul]

/-- endOfDay of a midnight instant is 23:59:59.999 of that day. -/
lemma endOfDay_mul (d : Int) : endOfDay (d * msPerDay) = d * msPerDay + (msPerDay - 1) := by
  unfold endOfDay
  rw [dayIndex_mul]

/-- C6: an all-day event whose provider end value is the bare date d+1
(exclusive) is mapped to the inclusive end-of-day instant of day d, and a
bare-date start is mapped to start-of-day of that date (which is the
midnight instant of the day, with end-of-day its last millisecond). -/
theorem c6_allday_exclusive_end (uuid : String) (idv summary : Option String)
    (ds d : Int) :
    (mapGoogleEvent uuid
        { id := idv, summary := summary,
          startValue := some (GDateValue.dateOnly ds),
          endValue := some (GDateValue.dateOnly (d + 1)) }).map
      (fun c => (c.start, c.endTime)) =
      some (startOfDay (ds * msPerDay), endOfDay (d * msPerDay)) ∧
    startOfDay (ds * msPerDay) = ds * msPerDay ∧
    endOfDay (d * msPerDay) = d * msPerDay + (msPerDay - 1) := by
  have harg : addDays ((d + 1) * msPerDay) (-1) = d * msPerDay := by
    unfold addDays
    ring
  exact ⟨by simp [mapGoogleEvent, parseGoogleDate, harg],
    startOfDay_mul ds, endOfDay_mul d⟩

/-- C7: a bare-date task due value spans its whole day, a full timestamp due
value is a point instant, and the concrete midnight-UTC due
2024-01-22T00:00:00.000Z (day index 19744) is normalized to a bare date and
mapped to the full day 2024-01-22 with source google-task. -/
theorem c7_task_due_semantics (d t : Int) (uuid : String) (idv status : Option String) :
    getTaskDateRange (TaskDueValue.dateOnly d) =
      (startOfDay (d * msPerDay), endOfDay (d * msPerDay)) ∧
    startOfDay (d * msPerDay) = d * msPerDay ∧
    endOfDay (d * msPerDay) = d * msPerDay + (msPerDay - 1) ∧
    getTaskDateRange (TaskDueValue.dateTime t) = (t, t) ∧
    (mapGoogleTask uuid
        { id := idv, title := some "Prep slides",
          due := some (TaskDueValue.midnightUtc 19744), status := status }).map
      (fun c => (c.start, c.endTime, c.source)) =
      some (19744 * msPerDay, 19744 * msPerDay + (msPerDay - 1),
        EventSource.googleTask) := by
  refine ⟨rfl, startOfDay_mul d, endOfDay_mul d, rfl, ?_⟩
  simp [mapGoogleTask, getTaskDateRange, normalizeTaskDue, startOfDay_mul, endOfDay_mul]

/-- Embedding of upcomingEvents from the page component: filter the fetched
events with the overlap test `event.start <= end && event.end >= start` and
sort ascending by start.  The window bounds are parameters standing for
new Date() and endOfDay(addDays(start, 7)). -/
def upcomingEvents (events : List CalendarEvent) (wStart wEnd : Int) :
    List CalendarEvent :=
  (events.filter fun event =>
      decide (event.start ≤ wEnd) && decide (wStart ≤ event.endTime)).mergeSort
    fun a b => decide (a.start ≤ b.start)

/-- Membership in upcomingEvents is exactly the overlap test. -/
lemma mem_upcomingEvents (events : List CalendarEvent) (wStart wEnd : Int)
    (e : CalendarEvent) :
    e ∈ upcomingEvents events wStart wEnd ↔
      e ∈ events ∧ e.start ≤ wEnd ∧ wStart ≤ e.endTime := by
  unfold upcomingEvents
  rw [(List.mergeSort_perm _ _).mem_iff, List.mem_filter]
  simp

/-- C8: an item is selected for the window exactly when it overlaps it
(item.start <= windowEnd and item.end >= windowStart); in particular an item
spanning the days D through D+2 is included for the one-day window of day
D+1. -/
theorem c8_window_overlap :
    (∀ (events : List CalendarEvent) (wStart wEnd : Int) (e : CalendarEvent),
      e ∈ upcomingEvents events wStart wEnd ↔
        e ∈ events ∧ e.start ≤ wEnd ∧ wStart ≤ e.endTime) ∧
    (∀ (D : Int) (idv title : String),
      ({ id := idv, title := title, start := startOfDay (D * msPerDay),
         endTime := endOfDay ((D + 2) * msPerDay),
         source := EventSource.google, completed := none } : CalendarEvent) ∈
        upcomingEvents
          [{ id := idv, title := title, start := startOfDay (D * msPerDay),
             endTime := endOfDay ((D + 2) * msPerDay),
             source := EventSource.google, completed := none }]
          (startOfDay ((D + 1) * msPerDay)) (endOfDay ((D + 1) * msPerDay))) := by
  refine ⟨mem_upcomingEvents, ?_⟩
  intro D idv title
  rw [mem_upcomingEvents]
  refine ⟨List.mem_singleton_self _, ?_, ?_⟩ <;>
    simp only [startOfDay_mul, endOfDay_mul] <;> simp only [msPerDay] <;> omega

/-- Local board status of a task: 'todo' | 'inProgress' | 'done'. -/
inductive BoardStatus where
  | todo
  | inProgress
  | done
  deriving Repr, DecidableEq

/-- Visible status of a google task on the board: the Override entry for its
id when present, else the fetched status (boardTasks in the page component:
`status: googleTaskOverrides[task.id] ?? task.status`). -/
def boardStatus (override : Option BoardStatus) (fetched : BoardStatus) : BoardStatus :=
  override.getD fetched

/-- Embedding of handleMoveTask for a google-task-sourced target, abstracted
over one item: prevOverride is the Override entry for the item before the
call, fetched its fetched status, requested the column it was dropped on,
remoteOk whether the remote mutation succeeded.  Returns the Override entry
after the handler finishes and whether an error toast was shown.
previousStatus is captured as `googleTaskOverrides[target.id] ?? target.status`
where target.status is already the overridden board status.  For inProgress
the override is written and kept on success; for todo/done it is written and
then cleared on success; every failure path replaces the override with
previousStatus and surfaces the error. -/
def applyMoveGoogleTask (prevOverride : Option BoardStatus) (fetched : BoardStatus)
    (requested : BoardStatus) (remoteOk : Bool) : Option BoardStatus × Bool :=
  let targetStatus := boardStatus prevOverride fetched
  let previousStatus := prevOverride.getD targetStatus
  if requested = BoardStatus.inProgress then
    if remoteOk then (some BoardStatus.inProgress, false)
    else (some previousStatus, true)
  else
    if remoteOk then (none, false)
    else (some previousStatus, true)

/-- C4: when the remote mutation fails, the Override is set back to the
captured previousStatus (not cleared), the visible board status equals the
pre-mutation visible status, and the error is surfaced. -/
theorem c4_failed_move_rollback (prevOverride : Option BoardStatus)
    (fetched requested : BoardStatus) :
    (applyMoveGoogleTask prevOverride fetched requested false).1 =
      some (boardStatus prevOverride fetched) ∧
    boardStatus (applyMoveGoogleTask prevOverride fetched requested false).1 fetched =
      boardStatus prevOverride fetched ∧
    (applyMoveGoogleTask prevOverride fetched requested false).2 = true := by
  cases prevOverride <;> cases requested <;>
    simp [applyMoveGoogleTask, boardStatus]

/-- Request body sent by the PATCH /tasks/:taskId route to the provider; the
completed field carries the completion timestamp or null. -/
structure TaskPatchBody where
  status : String
  completed : Option String
  deriving Repr, DecidableEq

/-- Embedding of the requestBody construction of the PATCH route: the
incoming status is coerced with `status === "completed" ? "completed" :
"needsAction"`, a completion timestamp (new Date().toISOString(), the now
argument) is attached when completing, and completed is null otherwise. -/
def buildTaskPatchBody (status : Option String) (now : String) : TaskPatchBody :=
  let normalizedStatus :=
    if status == some "completed" then "completed" else "needsAction"
  if normalizedStatus = "completed" then
    { status := "completed", completed := some now }
  else
    { status := "needsAction", completed := none }

/-- C10: the status written to the provider is "completed" exactly when the
request body status equals the string "completed" and "needsAction" for any
other value (including a missing status); the completion timestamp is
attached exactly when completing and completed is null when un-completing. -/
theorem c10_patch_status_coercion (status : Option String) (now : String) :
    (status = some "completed" →
      buildTaskPatchBody status now =
        { status := "completed", completed := some now }) ∧
    (status ≠ some "completed" →
      buildTaskPatchBody status now =
        { status := "needsAction", completed := none }) := by
  constructor
  · intro h
    simp [buildTaskPatchBody, h]
  · intro h
    have hb : (status == some "completed") = false := by
      simpa using h
    simp [buildTaskPatchBody, hb]

/-- Witness for c10_patch_status_coercion: completing attaches the timestamp,
a missing status un-completes with completed null. -/
theorem c10_patch_status_coercion_witness :
    buildTaskPatchBody (some "completed") "2024-01-22T10:00:00.000Z" =
      { status := "completed", completed := some "2024-01-22T10:00:00.000Z" } ∧
    buildTaskPatchBody none "2024-01-22T10:00:00.000Z" =
      { status := "needsAction", completed := none } :=
  ⟨(c10_patch_status_coercion (some "completed") "2024-01-22T10:00:00.000Z").1 rfl,
   (c10_patch_status_coercion none "2024-01-22T10:00:00.000Z").2 (by decide)⟩

/-- HTTP response as seen inside the try block: the ok flag and the result of
a later response.json() call on it, which either yields the parsed item list
(a non-array items field is already collapsed to the empty list, as the
source does with Array.isArray) or throws a parse error. -/
structure FetchResponse (α : Type) where
  ok : Bool
  body : Except String (List α)
  deriving Repr

/-- Combined window fetch of useGoogleCalendarEvents.  Each fetch call either
rejects outright (network failure: Except.error) or resolves to an HTTP
response.  The two fetches are joined with Promise.all, so either rejection
reaches the shared catch, which runs setEvents([]) and setError: a rejected
tasks fetch aborts the whole result even though the events fetch succeeded.
On two resolved responses: a non-ok events response throws (message from its
body via .catch, the errMsg argument); an ok events response has its body
parsed, a parse throw aborting; a tasks response is parsed only when ok
(a parse throw there also aborting through the same catch), and a non-ok
tasks response degrades the mapped tasks to the empty list; the mapped
events and tasks are then concatenated and deduplicated.  Returns (stored
events state, stored error state); when both promises reject the catch sees
whichever rejection settled first, modelled here as the events one. -/
def fetchEventsResult (eventsFetch : Except String (FetchResponse GEvent))
    (tasksFetch : Except String (FetchResponse GTask))
    (uuid errMsg : String) : List CalendarEvent × Option String :=
  match eventsFetch, tasksFetch with
  | Except.error e, _ => ([], some e)
  | _, Except.error e => ([], some e)
  | Except.ok eventsResponse, Except.ok tasksResponse =>
    if eventsResponse.ok then
      match eventsResponse.body with
      | Except.error e => ([], some e)
      | Except.ok eventItems =>
        let mappedEvents := eventItems.filterMap (mapGoogleEvent uuid)
        if tasksResponse.ok then
          match tasksResponse.body with
          | Except.error e => ([], some e)
          | Except.ok taskItems =>
            (dedupeEvents (mappedEvents ++ taskItems.filterMap (mapGoogleTask uuid)),
              none)
        else (dedupeEvents (mappedEvents ++ []), none)
    else ([], some errMsg)

/-- Every event produced by mapGoogleEvent is google-sourced. -/
lemma mapGoogleEvent_source (uuid : String) (event : GEvent) (c : CalendarEvent)
    (h : mapGoogleEvent uuid event = some c) : c.source = EventSource.google := by
  unfold mapGoogleEvent at h
  split at h
  · exact absurd h (by simp)
  · injection h with h2
    rw [← h2]

/-- The deduplicator leaves a list without task-sourced items unchanged. -/
lemma dedupeEvents_no_tasks (events : List CalendarEvent)
    (h : ∀ e ∈ events, e.source = EventSource.google) :
    dedupeEvents events = events := by
  have hkeys : taskKeys events = [] := by
    unfold taskKeys
    have hf : events.filter (fun e => e.source == EventSource.googleTask) = [] := by
      rw [List.filter_eq_nil_iff]
      intro a ha
      rw [h a ha]
      decide
    rw [hf, List.map_nil]
  unfold dedupeEvents
  rw [hkeys]
  apply List.filter_eq_self.mpr
  intro a ha
  rw [h a ha]
  simp

/-- Google task returned by the tasks endpoint in the C3 counterexample. -/
def taskPrep : GTask :=
  { id := some "t1", title := some "Prep slides",
    due := some (TaskDueValue.midnightUtc 19744), status := some "needsAction" }

/-- C3 counterexample: with a non-ok events response and a successful tasks
response carrying a mappable task, the combined result is the empty list and
an error, so the successfully fetched task is dropped: a failure of the
events fetch does fail the tasks side. -/
theorem c3_counterexample :
    (mapGoogleTask "u" taskPrep).isSome = true ∧
    fetchEventsResult (Except.ok { ok := false, body := Except.ok [] })
        (Except.ok { ok := true, body := Except.ok [taskPrep] }) "u"
        "Failed to fetch Google Calendar events" =
      ([], some "Failed to fetch Google Calendar events") :=
  ⟨rfl, rfl⟩

/-- C3 (amended): only a tasks fetch that resolves with a non-ok HTTP
response degrades independently, to an empty tasks side, while every mapped
event still appears (deduplication is the identity there since no
task-sourced item is present) and no error is set; every other failure
aborts the combined result through the shared catch of the hook, dropping
the other source and setting the error: a non-ok events response, a tasks or
events fetch that rejects outright (network failure, which rejects the
Promise.all join), and a body parse throw on an ok response. -/
theorem c3_fetch_isolation (eventsItems : List GEvent) (taskItems : List GTask)
    (tasksBody : Except String (List GTask)) (uuid errMsg netErr parseErr : String) :
    fetchEventsResult (Except.ok { ok := true, body := Except.ok eventsItems })
        (Except.ok { ok := false, body := tasksBody }) uuid errMsg =
      (eventsItems.filterMap (mapGoogleEvent uuid), none) ∧
    fetchEventsResult (Except.ok { ok := false, body := Except.ok eventsItems })
        (Except.ok { ok := true, body := Except.ok taskItems }) uuid errMsg =
      ([], some errMsg) ∧
    fetchEventsResult (Except.ok { ok := true, body := Except.ok eventsItems })
        (Except.error netErr) uuid errMsg = ([], some netErr) ∧
    fetchEventsResult (Except.error netErr)
        (Except.ok { ok := true, body := Except.ok taskItems }) uuid errMsg =
      ([], some netErr) ∧
    fetchEventsResult (Except.ok { ok := true, body := Except.ok eventsItems })
        (Except.ok { ok := true, body := Except.error parseErr }) uuid errMsg =
      ([], some parseErr) := by
  refine ⟨?_, rfl, rfl, rfl, rfl⟩
  show (dedupeEvents (eventsItems.filterMap (mapGoogleEvent uuid) ++ []), none) = _
  rw [List.append_nil, dedupeEvents_no_tasks]
  intro e he
  rw [List.mem_filterMap] at he
  obtain ⟨ev, _, hm⟩ := he
  exact mapGoogleEvent_source uuid ev e hm
